import Mathlib

/-
Shallow embedding of the Honeypot program (src/Honeypot.py).

The program is a single-file TCP honeypot: an accept loop that, for each
accepted connection, filters the source IP against a blacklist and a
whitelist, reads up to 2048 bytes, decodes them with errors=ignore and
strips surrounding whitespace, classifies the text against a fixed list of
regular-expression patterns, enriches the source IP through an HTTP
geolocation lookup, appends a record to a JSON log file, inserts a row into
a SQLite table, and, for suspicious payloads, sends a canned fake shell
reply.

Modelling choices:
  - Pure helpers (is_suspicious, get_geo, setup_db, log_event) are embedded
    as Lean functions over explicit inputs; the interaction with the outside
    world (the bytes the peer sent, the outcome of the HTTP request, whether
    a sink write raises) is passed in as a parameter.
  - The body of the accept loop (Honeypot.py lines 101-130) is embedded as
    handle_connection, a function from those inputs to the list of
    observable effects the iteration performs, in program order.
  - Each regex in SUSPICIOUS_PATTERNS is an alternation of literal keywords,
    optionally followed by a dot-star; re.search with such a pattern
    succeeds exactly when some alternative occurs as a substring, so a
    pattern is embedded as its list of keyword strings and matching as
    case-insensitive substring search. Case-insensitive matching is modelled
    by ASCII lowercasing (every pattern keyword is lowercase ASCII).
-/

/-- Geolocation record returned by get_geo: the three fields of the dict
built at Honeypot.py lines 48-52. -/
structure Geo where
  country : String
  city : String
  org : String
deriving DecidableEq

/-- Outcome of the expression requests.get(url).json() at Honeypot.py
line 47: either some step raised (network error, timeout, unparseable
body), or it produced a JSON object, modelled as the HTTP status code
together with an association list of string fields. The requests library
does not raise on a non-2xx status, so a status is part of the success
case. -/
inductive GeoOutcome
  | raised
  | ok (status : Nat) (body : List (String × String))
deriving DecidableEq

/-- Python dict get with a default: first binding of the key, if any.
Embeds res.get(field, default) at Honeypot.py lines 49-51. -/
def lookupField (body : List (String × String)) (k : String) : Option String :=
  (body.find? fun kv => kv.1 == k).map fun kv => kv.2

/-- The placeholder triple returned when the lookup raises
(Honeypot.py line 54). -/
def GEO_SENTINEL : Geo := ⟨"N/A", "N/A", "N/A"⟩

/-- Embeds get_geo (Honeypot.py lines 45-54). The whole try body is guarded
by a bare except returning the sentinel; on success each field defaults to
N/A only when the key is absent from the response object. The status code
is never inspected by the source. -/
def get_geo : GeoOutcome → Geo
  | .raised => GEO_SENTINEL
  | .ok _ body =>
      ⟨(lookupField body "country").getD "N/A",
       (lookupField body "city").getD "N/A",
       (lookupField body "org").getD "N/A"⟩

/-- URL requested by get_geo for a given source IP (Honeypot.py line 47). -/
def geoUrl (ip : String) : String := "http://ip-api.com/json/" ++ ip

/-- SUSPICIOUS_PATTERNS (Honeypot.py lines 18-23), each regex replaced by
the list of literal alternatives it searches for:
  (select|union|insert|drop|delete|update).*
  (cmd|powershell|bash|sh).*
  (\.\./|\%2e\%2e/)
  (wget|curl|nc|ncat|telnet).*  -/
def SUSPICIOUS_PATTERNS : List (List String) :=
  [["select", "union", "insert", "drop", "delete", "update"],
   ["cmd", "powershell", "bash", "sh"],
   ["../", "%2e%2e/"],
   ["wget", "curl", "nc", "ncat", "telnet"]]

/-- Leading-segment test: kw is an initial segment of l. -/
def leadsWith : List Char → List Char → Bool
  | [], _ => true
  | _ :: _, [] => false
  | a :: as, b :: bs => a == b && leadsWith as bs

/-- Unanchored substring test: kw occurs somewhere in l. Embeds the
semantics of re.search for a literal alternative. -/
def occursIn (kw : List Char) : List Char → Bool
  | [] => kw.isEmpty
  | l@(_ :: rest) => leadsWith kw l || occursIn kw rest

/-- ASCII-lowercased character list of a string; models the IGNORECASE
flag at Honeypot.py line 59 (all pattern keywords are lowercase ASCII). -/
def lowerChars (s : String) : List Char := s.data.map Char.toLower

/-- One pattern matches the text when some of its literal alternatives
occurs in the lowercased text. -/
def patternMatches (p : List String) (t : String) : Bool :=
  p.any fun kw => occursIn (kw.data.map Char.toLower) (lowerChars t)

/-- The loop of is_suspicious (Honeypot.py lines 58-61): try each pattern
in order, return true on the first match. -/
def searchPatterns (t : String) : List (List String) → Bool
  | [] => false
  | p :: ps => if patternMatches p t then true else searchPatterns t ps

/-- Embeds is_suspicious (Honeypot.py lines 57-61). -/
def is_suspicious (data : String) : Bool :=
  searchPatterns data SUSPICIOUS_PATTERNS

/-- Continuation byte test for UTF-8 (second and later bytes of a
multi-byte sequence, except the restricted first continuation). -/
def contByte (b : Nat) : Bool := 0x80 ≤ b && b ≤ 0xBF

/-- Allowed range of the first continuation byte after a three-byte lead:
E0 excludes overlong encodings, ED excludes surrogates. -/
def cont1of3 (b b2 : Nat) : Bool :=
  if b = 0xE0 then 0xA0 ≤ b2 && b2 ≤ 0xBF
  else if b = 0xED then 0x80 ≤ b2 && b2 ≤ 0x9F
  else contByte b2

/-- Allowed range of the first continuation byte after a four-byte lead:
F0 excludes overlong encodings, F4 caps code points at U+10FFFF. -/
def cont1of4 (b b2 : Nat) : Bool :=
  if b = 0xF0 then 0x90 ≤ b2 && b2 ≤ 0xBF
  else if b = 0xF4 then 0x80 ≤ b2 && b2 ≤ 0x8F
  else contByte b2

/-- UTF-8 decoding with errors=ignore, as performed by bytes.decode at
Honeypot.py line 114: a well-formed sequence yields its code point; an
ill-formed portion (an invalid start byte, or a valid lead whose
continuation check fails) is skipped silently, decoding resuming at the
first byte that broke the sequence; a sequence truncated by the end of
input is skipped. The fuel argument bounds the recursion by the input
length; every step consumes at least one byte, so fuel = length is always
enough. -/
def utf8go : Nat → List Nat → List Char
  | 0, _ => []
  | _ + 1, [] => []
  | fuel + 1, b :: rest =>
    if b < 0x80 then
      Char.ofNat b :: utf8go fuel rest
    else if 0xC2 ≤ b && b ≤ 0xDF then
      match rest with
      | [] => []
      | b2 :: rest2 =>
        if contByte b2 then
          Char.ofNat ((b - 0xC0) * 64 + (b2 - 0x80)) :: utf8go fuel rest2
        else utf8go fuel rest
    else if 0xE0 ≤ b && b ≤ 0xEF then
      match rest with
      | [] => []
      | b2 :: rest2 =>
        if cont1of3 b b2 then
          match rest2 with
          | [] => []
          | b3 :: rest3 =>
            if contByte b3 then
              Char.ofNat ((b - 0xE0) * 4096 + (b2 - 0x80) * 64 + (b3 - 0x80))
                :: utf8go fuel rest3
            else utf8go fuel rest2
        else utf8go fuel rest
    else if 0xF0 ≤ b && b ≤ 0xF4 then
      match rest with
      | [] => []
      | b2 :: rest2 =>
        if cont1of4 b b2 then
          match rest2 with
          | [] => []
          | b3 :: rest3 =>
            if contByte b3 then
              match rest3 with
              | [] => []
              | b4 :: rest4 =>
                if contByte b4 then
                  Char.ofNat ((b - 0xF0) * 262144 + (b2 - 0x80) * 4096
                      + (b3 - 0x80) * 64 + (b4 - 0x80))
                    :: utf8go fuel rest4
                else utf8go fuel rest3
            else utf8go fuel rest2
        else utf8go fuel rest
    else
      utf8go fuel rest

/-- Decode a byte list as UTF-8 with errors=ignore (Honeypot.py line 114). -/
def utf8DecodeIgnore (bs : List Nat) : List Char := utf8go bs.length bs

/-- Whitespace stripped by the Python str.strip method with no argument:
the Unicode whitespace code points. -/
def isPySpace (c : Char) : Bool :=
  let n := c.toNat
  (0x09 ≤ n && n ≤ 0x0D) || (0x1C ≤ n && n ≤ 0x1F) || n == 0x20 ||
    n == 0x85 || n == 0xA0 || n == 0x1680 ||
    (0x2000 ≤ n && n ≤ 0x200A) || n == 0x2028 || n == 0x2029 ||
    n == 0x202F || n == 0x205F || n == 0x3000

/-- Remove leading and trailing whitespace, as str.strip does at
Honeypot.py line 114. -/
def pyStrip (l : List Char) : List Char :=
  ((l.dropWhile isPySpace).reverse.dropWhile isPySpace).reverse

/-- The text the handler works with: recv bytes, decoded with
errors=ignore, stripped (Honeypot.py line 114). -/
def capturedText (bs : List Nat) : String :=
  String.mk (pyStrip (utf8DecodeIgnore bs))

/-- Buffer size passed to client.recv at Honeypot.py line 114. -/
def RECV_BUFSIZE : Nat := 2048

/-- Read deadline of the accepted client socket. The source never calls
settimeout on the server or client socket (Honeypot.py lines 97-130), and
Python sockets default to blocking mode with no timeout, so there is no
read deadline. -/
def clientRecvTimeout : Option Nat := none

/-- Timeout of the geolocation HTTP request. requests.get at Honeypot.py
line 47 is called without a timeout argument, and the requests library
default is no timeout. -/
def geoRequestTimeout : Option Nat := none

/-- BLACKLIST_IPS as configured in the source (Honeypot.py line 16). -/
def BLACKLIST_IPS : List String := []

/-- WHITELIST_IPS as configured in the source (Honeypot.py line 15). -/
def WHITELIST_IPS : List String := []

/-- The canned fake shell reply (Honeypot.py line 66). -/
def FAKE_RESPONSE : String := "[root@honeypot /]$ command not found\n"

/-- The JSON-log record built at Honeypot.py lines 73-80 (the timestamp,
taken from the wall clock at line 74, is passed in explicitly). -/
structure LogEntry where
  timestamp : String
  ip : String
  port : Nat
  data : String
  geo : Geo
  suspicious : Bool
deriving DecidableEq

/-- The SQLite row inserted at Honeypot.py lines 87-88; suspicious is
stored as int(suspicious). -/
structure DbRow where
  timestamp : String
  ip : String
  port : Nat
  data : String
  country : String
  city : String
  org : String
  suspicious : Nat
deriving DecidableEq

/-- A write to one of the two sinks. -/
inductive SinkWrite
  | json (entry : LogEntry)
  | db (row : DbRow)
deriving DecidableEq

/-- Embeds log_event (Honeypot.py lines 72-90). The function first appends
the JSON record to the log file and then inserts the SQLite row; it has no
internal error handling, so an exception from either write aborts it at
that point and propagates to the caller. The two booleans say whether the
respective write would succeed; the result is the list of sink writes that
were performed, in order, together with the propagated exception, if any. -/
def log_event (ts : String) (addr : String × Nat) (data : String)
    (geo : Geo) (suspicious : Bool) (jsonOk dbOk : Bool) :
    List SinkWrite × Option String :=
  let entry : LogEntry := ⟨ts, addr.1, addr.2, data, geo, suspicious⟩
  if jsonOk then
    let row : DbRow := ⟨ts, addr.1, addr.2, data, geo.country, geo.city,
      geo.org, if suspicious then 1 else 0⟩
    if dbOk then ([.json entry, .db row], none)
    else ([.json entry], some "sqlite insert failed")
  else ([], some "json append failed")

/-- Observable effects performed by one iteration of the accept loop. -/
inductive Effect
  | consolePrint (msg : String)
  | recvCall (bufSize : Nat)
  | httpGetCall (url : String)
  | sinkWrite (w : SinkWrite)
  | sendReply (msg : String)
  | closeConn
deriving DecidableEq

/-- Effects of the try/except/finally block of the accept loop (Honeypot.py
lines 113-127, the finally clause excluded). recvRes is what client.recv
produced: the received bytes, or the exception it raised. A failing sink
write aborts log_event, and the except clause prints the error; get_geo and
send_fake_response swallow their own exceptions and never raise. The send
inside send_fake_response is recorded as a sendReply effect (delivery to
the peer is outside the model). -/
def processBody (addr : String × Nat) (recvRes : Except String (List Nat))
    (geoRes : GeoOutcome) (jsonOk dbOk : Bool) (ts : String) : List Effect :=
  match recvRes with
  | .error e => [.recvCall RECV_BUFSIZE, .consolePrint ("[ERROR] " ++ e)]
  | .ok bs =>
    let data := capturedText bs
    let geo := get_geo geoRes
    let susp := is_suspicious data
    let lg := log_event ts addr data geo susp jsonOk dbOk
    [.recvCall RECV_BUFSIZE, .httpGetCall (geoUrl addr.1)]
      ++ lg.1.map Effect.sinkWrite
      ++ (match lg.2 with
          | some err => [.consolePrint ("[ERROR] " ++ err)]
          | none =>
            [.consolePrint ("[NEW] " ++ addr.1 ++ ":" ++ toString addr.2),
             .consolePrint (" ↳ Location: " ++ geo.city ++ ", "
               ++ geo.country ++ " | Org: " ++ geo.org),
             .consolePrint (" ↳ Data: " ++ data)]
              ++ (if susp then
                    [.consolePrint " ⚠ Suspicious activity detected!",
                     .sendReply FAKE_RESPONSE]
                  else []))

/-- Embeds the body of the accept loop of start_honeypot (Honeypot.py lines
101-130), from right after server.accept to the end of the iteration. The
source runs this inline in the accept loop: no thread or task is created
anywhere in the file, so the next accept happens only after this whole list
of effects. The blacklist and whitelist are the module-level configuration
lists (both empty in the source); they are parameters here so that the
filtering branches are not vacuous. -/
def handle_connection (blacklist whitelist : List String)
    (addr : String × Nat) (recvRes : Except String (List Nat))
    (geoRes : GeoOutcome) (jsonOk dbOk : Bool) (ts : String) : List Effect :=
  if blacklist.contains addr.1 then
    [.consolePrint ("[BLOCKED] Connection from blacklisted IP " ++ addr.1),
     .closeConn]
  else if whitelist.contains addr.1 then
    [.consolePrint ("[IGNORED] Whitelisted IP " ++ addr.1), .closeConn]
  else
    processBody addr recvRes geoRes jsonOk dbOk ts ++ [.closeConn]

/-- Effect is a write to either sink. -/
def isSinkWrite : Effect → Bool
  | .sinkWrite _ => true
  | _ => false

/-- Effect is an append to the JSON log. -/
def isJsonWrite : Effect → Bool
  | .sinkWrite (.json _) => true
  | _ => false

/-- Effect is an insert into the SQLite store. -/
def isDbWrite : Effect → Bool
  | .sinkWrite (.db _) => true
  | _ => false

/-- Embeds the CREATE TABLE statement at Honeypot.py lines 30-40 on a
database whose tables are the given list: SQLite CREATE TABLE without IF
NOT EXISTS fails when the table already exists. -/
def createLogsTable (tables : List String) : Except String (List String) :=
  if tables.contains "logs" then Except.error "table logs already exists"
  else Except.ok (tables ++ ["logs"])

/-- Embeds setup_db (Honeypot.py lines 26-42) as a transformer of the
database-file state: none when DB_FILE does not exist, some tables when it
exists with the given table list. When the file is absent, sqlite3.connect
creates it empty and the logs table is created in it; when the file exists,
the body is skipped entirely. -/
def setup_db : Option (List String) → Except String (Option (List String))
  | none => (createLogsTable []).map some
  | some tables => Except.ok (some tables)

/-- The pattern loop returns true exactly when some pattern in the list
matches. -/
theorem searchPatterns_eq_true_iff (t : String) (ps : List (List String)) :
    searchPatterns t ps = true ↔ ∃ p, p ∈ ps ∧ patternMatches p t = true := by
  induction ps with
  | nil => simp [searchPatterns]
  | cons p ps ih =>
    by_cases h : patternMatches p t = true
    · simp only [searchPatterns, if_pos h, true_iff]
      exact ⟨p, List.mem_cons_self p ps, h⟩
    · simp only [searchPatterns, if_neg h]
      rw [ih]
      constructor
      · rintro ⟨q, hq, hm⟩
        exact ⟨q, List.mem_cons_of_mem p hq, hm⟩
      · rintro ⟨q, hq, hm⟩
        rcases List.mem_cons.mp hq with rfl | hq2
        · exact absurd hm h
        · exact ⟨q, hq2, hm⟩

/-- The head of a dropWhile result never satisfies the dropped predicate. -/
theorem dropWhile_head_not {α : Type} (p : α → Bool) (l : List α) :
    ((l.dropWhile p).head?.all fun c => !p c) = true := by
  induction l with
  | nil => rfl
  | cons a as ih =>
    by_cases h : p a = true
    · simpa [List.dropWhile_cons, h] using ih
    · have h2 : p a = false := by
        cases hpa : p a
        · rfl
        · exact absurd hpa h
      simp [List.dropWhile_cons, h2]

/-- dropWhile returns a suffix of its input. -/
theorem dropWhile_suffix_exists {α : Type} (p : α → Bool) (l : List α) :
    ∃ t, t ++ l.dropWhile p = l := by
  induction l with
  | nil => exact ⟨[], rfl⟩
  | cons a as ih =>
    by_cases h : p a = true
    · obtain ⟨t, ht⟩ := ih
      exact ⟨a :: t, by simp [List.dropWhile_cons, h, ht]⟩
    · have h2 : p a = false := by
        cases hpa : p a
        · rfl
        · exact absurd hpa h
      exact ⟨[], by simp [List.dropWhile_cons, h2]⟩

/-- Dropping trailing elements (through the reverse trick) from a list
whose head does not satisfy p keeps the head free of p. -/
theorem strip_ends_aux (p : Char → Bool) (m : List Char)
    (hhead : (m.head?.all fun c => !p c) = true) :
    (((m.reverse.dropWhile p).reverse.head?.all fun c => !p c) = true) := by
  obtain ⟨t, ht⟩ := dropWhile_suffix_exists p m.reverse
  have hm2 : (m.reverse.dropWhile p).reverse ++ t.reverse = m := by
    have h := congrArg List.reverse ht
    simpa [List.reverse_append] using h
  cases hXr : (m.reverse.dropWhile p).reverse with
  | nil => simp
  | cons b bs =>
    have h2 : m.head? = some b := by
      rw [← hm2, hXr]; rfl
    rw [h2] at hhead
    simpa using hhead

/-- With the empty configured lists of the source, neither filtering branch
fires and the loop body is the try block followed by the close. -/
theorem handle_connection_empty_lists (addr : String × Nat)
    (recvRes : Except String (List Nat)) (geoRes : GeoOutcome)
    (jOk dOk : Bool) (ts : String) :
    handle_connection BLACKLIST_IPS WHITELIST_IPS addr recvRes geoRes jOk dOk ts =
      processBody addr recvRes geoRes jOk dOk ts ++ [Effect.closeConn] := rfl

/-- Claim C1: for every payload text matching at least one configured
suspicious pattern (case-insensitively) is_suspicious returns true, for
every text matching no pattern it returns false, and the empty payload is
classified non-suspicious. -/
theorem is_suspicious_iff_pattern_match :
    ∀ t : String,
      (is_suspicious t = true ↔
        ∃ p, p ∈ SUSPICIOUS_PATTERNS ∧ patternMatches p t = true)
      ∧ is_suspicious "" = false :=
  fun t => ⟨searchPatterns_eq_true_iff t SUSPICIOUS_PATTERNS, by decide⟩

/-- Claim C9: setup_db is idempotent: from a fresh state the first call
creates the single logs table without error, and a second call returns
without error and without touching the schema; in general running setup_db
twice equals running it once. -/
theorem setup_db_idempotent :
    setup_db none = Except.ok (some ["logs"])
    ∧ (setup_db none).bind setup_db = Except.ok (some ["logs"])
    ∧ (∀ s, (setup_db s).bind setup_db = setup_db s)
    ∧ (["logs"] : List String).count "logs" = 1 := by
  refine ⟨rfl, rfl, ?_, by decide⟩
  intro s
  cases s <;> rfl

/-- Claim C7 (counterexample): the claim says both blocking steps are
time-bounded, but neither the client socket read nor the geolocation HTTP
request has any timeout configured. -/
theorem no_timeouts_configured :
    (clientRecvTimeout.isSome && geoRequestTimeout.isSome) = false := rfl

/-- Claim C7 (amended): the socket read is bounded in size (2048 bytes) but
not in time, and the HTTP lookup has no request timeout either. -/
theorem size_bounded_time_unbounded :
    clientRecvTimeout = none ∧ geoRequestTimeout = none ∧ RECV_BUFSIZE = 2048 :=
  ⟨rfl, rfl, rfl⟩

/-- Claim C2 (counterexample): the claim asserts the read has a bounded
wait, but no read timeout is ever set on the accepted socket. -/
theorem recv_wait_unbounded : clientRecvTimeout = none := rfl

/-- Claim C3 (counterexample): when the JSON append fails, log_event
performs no write at all — in particular the SQLite insert is skipped
rather than still being performed. -/
theorem json_failure_skips_db :
    (log_event "t0" ("1.2.3.4", 5555) "x" ⟨"A", "B", "C"⟩ true false true).1 = []
    ∧ (log_event "t0" ("1.2.3.4", 5555) "x" ⟨"A", "B", "C"⟩ true false true).2
        = some "json append failed" := ⟨rfl, rfl⟩

/-- Claim C3 (amended): under normal operation log_event performs exactly
one JSON append and one SQLite insert carrying the same ip, port and
suspicious values; when the SQLite insert fails the JSON record has already
been written and stays; when the JSON append fails the function aborts with
the propagated error and the SQLite insert is skipped. -/
theorem log_event_dual_sink_behavior :
    ∀ (ts : String) (addr : String × Nat) (data : String) (geo : Geo)
      (susp : Bool),
      log_event ts addr data geo susp true true =
        ([SinkWrite.json ⟨ts, addr.1, addr.2, data, geo, susp⟩,
          SinkWrite.db ⟨ts, addr.1, addr.2, data, geo.country, geo.city,
            geo.org, if susp then 1 else 0⟩], none)
      ∧ (∀ dOk, log_event ts addr data geo susp false dOk =
          ([], some "json append failed"))
      ∧ log_event ts addr data geo susp true false =
          ([SinkWrite.json ⟨ts, addr.1, addr.2, data, geo, susp⟩],
            some "sqlite insert failed") :=
  fun _ _ _ _ _ => ⟨rfl, fun _ => rfl, rfl⟩

/-- Claim C4 (counterexample): get_geo never inspects the HTTP status, so a
non-2xx response with a parseable JSON body is used as data instead of
yielding the sentinel triple; and a field explicitly present as the empty
string is passed through empty. -/
theorem get_geo_ignores_status :
    get_geo (.ok 404 [("country", "Somewhere")]) = ⟨"Somewhere", "N/A", "N/A"⟩
    ∧ get_geo (.ok 404 [("country", "Somewhere")]) ≠ GEO_SENTINEL
    ∧ (get_geo (.ok 200 [("country", "")])).country = "" := by
  exact ⟨by decide, by decide, by decide⟩

/-- Claim C4 (amended): when the lookup raises (network error, timeout,
malformed body) get_geo returns the sentinel triple; on a parsed response
every absent field defaults to N/A, so the returned triple always has all
three fields defined; the HTTP status is ignored. -/
theorem get_geo_sentinel_behavior :
    get_geo .raised = GEO_SENTINEL
    ∧ (∀ st body, lookupField body "country" = none →
        (get_geo (.ok st body)).country = "N/A")
    ∧ (∀ st body, lookupField body "city" = none →
        (get_geo (.ok st body)).city = "N/A")
    ∧ (∀ st body, lookupField body "org" = none →
        (get_geo (.ok st body)).org = "N/A")
    ∧ ∀ st st2 body, get_geo (.ok st body) = get_geo (.ok st2 body) := by
  refine ⟨rfl, ?_, ?_, ?_, fun _ _ _ => rfl⟩ <;>
  · intro st body h
    simp [get_geo, h]

/-- Claim C4 (witness for the amended claim). -/
theorem get_geo_sentinel_behavior_witness :
    (get_geo (.ok 500 [])).country = "N/A"
    ∧ (get_geo (.ok 500 [])).city = "N/A"
    ∧ (get_geo (.ok 500 [])).org = "N/A" :=
  ⟨get_geo_sentinel_behavior.2.1 500 [] rfl,
   get_geo_sentinel_behavior.2.2.1 500 [] rfl,
   get_geo_sentinel_behavior.2.2.2.1 500 [] rfl⟩

/-- Claim C5: a blacklisted source IP is blocked and the connection closed
with no event persisted and no reply sent; a whitelisted (and not
blacklisted) source IP is ignored the same way; the blacklist is checked
first, so for an IP on both lists the blocked branch wins. -/
theorem deny_allow_filtering :
    ∀ (bl wl : List String) (addr : String × Nat)
      (recvRes : Except String (List Nat)) (geoRes : GeoOutcome)
      (jOk dOk : Bool) (ts : String),
      (bl.contains addr.1 = true →
        handle_connection bl wl addr recvRes geoRes jOk dOk ts =
          [.consolePrint ("[BLOCKED] Connection from blacklisted IP "
              ++ addr.1), .closeConn])
      ∧ (bl.contains addr.1 = false → wl.contains addr.1 = true →
        handle_connection bl wl addr recvRes geoRes jOk dOk ts =
          [.consolePrint ("[IGNORED] Whitelisted IP " ++ addr.1), .closeConn])
      ∧ ((bl.contains addr.1 = true ∨ wl.contains addr.1 = true) →
          (∀ w : SinkWrite, Effect.sinkWrite w ∉
            handle_connection bl wl addr recvRes geoRes jOk dOk ts)
          ∧ ∀ m : String, Effect.sendReply m ∉
            handle_connection bl wl addr recvRes geoRes jOk dOk ts) := by
  intro bl wl addr recvRes geoRes jOk dOk ts
  refine ⟨?_, ?_, ?_⟩
  · intro h
    have h2 : addr.1 ∈ bl := by simpa using h
    simp [handle_connection, h2]
  · intro h1 h2
    have h3 : addr.1 ∉ bl := by simpa using h1
    have h4 : addr.1 ∈ wl := by simpa using h2
    simp [handle_connection, h3, h4]
  · intro h
    cases hb : bl.contains addr.1 with
    | true =>
      have hb2 : addr.1 ∈ bl := by simpa using hb
      constructor
      · intro w
        simp [handle_connection, hb2]
      · intro m
        simp [handle_connection, hb2]
    | false =>
      have hb2 : addr.1 ∉ bl := by simpa using hb
      have hw : wl.contains addr.1 = true := by
        rcases h with h | h
        · rw [hb] at h; exact absurd h (by simp)
        · exact h
      have hw2 : addr.1 ∈ wl := by simpa using hw
      constructor
      · intro w
        simp [handle_connection, hb2, hw2]
      · intro m
        simp [handle_connection, hb2, hw2]

/-- Claim C5 (witness): an IP on both lists is blocked (deny precedence),
and a whitelisted IP is ignored, each with a bare print-and-close trace. -/
theorem deny_allow_filtering_witness :
    handle_connection ["9.9.9.9"] ["9.9.9.9"] ("9.9.9.9", 1) (.ok []) .raised
        true true "t0" =
      [.consolePrint ("[BLOCKED] Connection from blacklisted IP "
          ++ "9.9.9.9"), .closeConn]
    ∧ handle_connection ["9.9.9.9"] ["8.8.8.8"] ("8.8.8.8", 2) (.ok []) .raised
        true true "t0" =
      [.consolePrint ("[IGNORED] Whitelisted IP " ++ "8.8.8.8"), .closeConn] :=
  ⟨(deny_allow_filtering ["9.9.9.9"] ["9.9.9.9"] ("9.9.9.9", 1) (.ok [])
      .raised true true "t0").1 (by decide),
   (deny_allow_filtering ["9.9.9.9"] ["8.8.8.8"] ("8.8.8.8", 2) (.ok [])
      .raised true true "t0").2.1 (by decide) (by decide)⟩

/-- Claim C2 (amended): with the configured lists, a connection whose read
raises produces no sink write, but the failure is printed and the socket
still closed — the loss is recorded, not silent; a successful read leads to
exactly one JSON append and one SQLite insert; and the read, capped at 2048
bytes, has no timeout. -/
theorem handler_error_recorded_no_event :
    ∀ (addr : String × Nat) (e ts : String) (geoRes : GeoOutcome)
      (bs : List Nat),
      (handle_connection BLACKLIST_IPS WHITELIST_IPS addr (.error e) geoRes
        true true ts).countP isSinkWrite = 0
      ∧ Effect.consolePrint ("[ERROR] " ++ e) ∈
          handle_connection BLACKLIST_IPS WHITELIST_IPS addr (.error e) geoRes
            true true ts
      ∧ (handle_connection BLACKLIST_IPS WHITELIST_IPS addr (.error e) geoRes
          true true ts).getLast? = some Effect.closeConn
      ∧ (handle_connection BLACKLIST_IPS WHITELIST_IPS addr (.ok bs) geoRes
          true true ts).countP isJsonWrite = 1
      ∧ (handle_connection BLACKLIST_IPS WHITELIST_IPS addr (.ok bs) geoRes
          true true ts).countP isDbWrite = 1
      ∧ clientRecvTimeout = none := by
  intro addr e ts geoRes bs
  refine ⟨rfl, ?_, rfl, ?_, ?_, rfl⟩
  · rw [handle_connection_empty_lists]
    exact List.mem_append_left _ (List.mem_cons_of_mem _ (List.mem_cons_self _ _))
  · rw [handle_connection_empty_lists]
    cases h : is_suspicious (capturedText bs) <;>
      simp [processBody, log_event, h, isJsonWrite, List.countP_append,
        List.countP_cons]
  · rw [handle_connection_empty_lists]
    cases h : is_suspicious (capturedText bs) <;>
      simp [processBody, log_event, h, isDbWrite, List.countP_append,
        List.countP_cons]

/-- Claim C6 (counterexample): one iteration of the accept loop itself
performs the blocking socket read, the blocking HTTP lookup and both sink
writes — no concurrent unit is dispatched anywhere in the source, so this
work happens before the next accept. -/
theorem accept_loop_inline_blocking :
    Effect.recvCall 2048 ∈
      handle_connection BLACKLIST_IPS WHITELIST_IPS ("9.9.9.9", 1234)
        (.ok [65, 66]) .raised true true "t0"
    ∧ Effect.httpGetCall "http://ip-api.com/json/9.9.9.9" ∈
        handle_connection BLACKLIST_IPS WHITELIST_IPS ("9.9.9.9", 1234)
          (.ok [65, 66]) .raised true true "t0"
    ∧ (handle_connection BLACKLIST_IPS WHITELIST_IPS ("9.9.9.9", 1234)
        (.ok [65, 66]) .raised true true "t0").countP isSinkWrite = 2 := by
  decide

/-- Claim C6 (amended): each accepted connection is handled inline in the
accept loop; the blocking socket read and the blocking geolocation HTTP
lookup appear in the effect trace of the loop iteration itself, before the
next accept can happen. -/
theorem handler_inline_in_accept_loop :
    ∀ (addr : String × Nat) (bs : List Nat) (geoRes : GeoOutcome)
      (jOk dOk : Bool) (ts : String),
      Effect.recvCall RECV_BUFSIZE ∈
        handle_connection BLACKLIST_IPS WHITELIST_IPS addr (.ok bs) geoRes
          jOk dOk ts
      ∧ Effect.httpGetCall (geoUrl addr.1) ∈
          handle_connection BLACKLIST_IPS WHITELIST_IPS addr (.ok bs) geoRes
            jOk dOk ts := by
  intro addr bs geoRes jOk dOk ts
  rw [handle_connection_empty_lists]
  constructor
  · exact List.mem_append_left _ (List.mem_cons_self _ _)
  · exact List.mem_append_left _
      (List.mem_append_left _ (List.mem_cons_of_mem _ (List.mem_cons_self _ _)))

/-- Claim C10: any text containing one of the bare pattern keywords as a
substring anywhere (after lowercasing) is classified suspicious, and the
handler then sends the canned fake reply for it. -/
theorem keyword_substring_triggers_reply :
    ∀ (bs : List Nat) (addr : String × Nat) (geoRes : GeoOutcome)
      (ts : String) (p : List String) (kw : String),
      p ∈ SUSPICIOUS_PATTERNS → kw ∈ p →
      occursIn (kw.data.map Char.toLower) (lowerChars (capturedText bs)) = true →
      is_suspicious (capturedText bs) = true
      ∧ Effect.sendReply FAKE_RESPONSE ∈
          handle_connection BLACKLIST_IPS WHITELIST_IPS addr (.ok bs) geoRes
            true true ts := by
  intro bs addr geoRes ts p kw hp hkw hocc
  have hpm : patternMatches p (capturedText bs) = true := by
    unfold patternMatches
    exact List.any_eq_true.mpr ⟨kw, hkw, hocc⟩
  have hsusp : is_suspicious (capturedText bs) = true :=
    (searchPatterns_eq_true_iff _ _).mpr ⟨p, hp, hpm⟩
  refine ⟨hsusp, ?_⟩
  rw [handle_connection_empty_lists]
  simp [processBody, log_event, hsusp]

/-- Claim C10 (witness): the benign payload fish contains the keyword sh,
is classified suspicious, and receives the fake reply. -/
theorem keyword_substring_triggers_reply_witness :
    is_suspicious (capturedText [102, 105, 115, 104]) = true
    ∧ Effect.sendReply FAKE_RESPONSE ∈
        handle_connection BLACKLIST_IPS WHITELIST_IPS ("9.9.9.9", 1)
          (.ok [102, 105, 115, 104]) .raised true true "t0" :=
  keyword_substring_triggers_reply [102, 105, 115, 104] ("9.9.9.9", 1)
    .raised "t0" ["cmd", "powershell", "bash", "sh"] "sh"
    (by decide) (by decide) (by decide)

/-- Claim C8 (counterexample): decoding is done with errors=ignore, so an
invalid byte is dropped outright, not replaced with a substitution
character. -/
theorem invalid_byte_dropped_not_replaced :
    utf8DecodeIgnore [0xFF] = []
    ∧ utf8DecodeIgnore [0xFF] ≠ [Char.ofNat 0xFFFD] := by
  decide

/-- Claim C8 (amended): the captured text is the received bytes decoded
permissively — invalid byte sequences dropped, never fatal — and stripped
of surrounding whitespace on both ends before classification. -/
theorem decode_ignore_strip_behavior :
    ∀ bs : List Nat,
      ((capturedText bs).data.head?.all fun c => !isPySpace c) = true
      ∧ ((capturedText bs).data.getLast?.all fun c => !isPySpace c) = true
      ∧ utf8DecodeIgnore (255 :: bs) = utf8DecodeIgnore bs
      ∧ capturedText bs = String.mk (pyStrip (utf8DecodeIgnore bs)) := by
  intro bs
  refine ⟨?_, ?_, rfl, rfl⟩
  · show (((((utf8DecodeIgnore bs).dropWhile isPySpace).reverse.dropWhile
        isPySpace).reverse.head?.all fun c => !isPySpace c) = true)
    exact strip_ends_aux isPySpace _ (dropWhile_head_not isPySpace _)
  · show ((pyStrip (utf8DecodeIgnore bs)).getLast?.all
        fun c => !isPySpace c) = true
    unfold pyStrip
    rw [List.getLast?_reverse]
    exact dropWhile_head_not isPySpace _
